import Mathlib

/-
Shallow embedding of the VOLTNET SDK client (TypeScript) in Lean 4.

The definitions below are translated from the repository source:
  - `VoltnetClient` (constructor, `setupRetryLogic`, `shouldRetry`,
    `initializeWebSocket` and its handlers, `handleWebSocketMessage`,
    `disconnect`) from `src/VoltnetClient.ts`;
  - `calculatePower` and `retryWithBackoff` from `src/utils.ts`.

JavaScript numbers used as statuses, counters and delays are modelled as
`Nat`; the arithmetic of `calculatePower` is modelled over `ℚ`.
-/

namespace Voltnet

/-- An HTTP failure as seen by the axios response interceptor.
`response = none` models `!error.response` (no response was received at
all, a network-level failure); `response = some s` models a received
response with status code `s`.  The `tag` field is the identity of the
error object, letting theorems state that a failure is surfaced to the
caller unchanged. -/
structure HttpError where
  response : Option Nat
  tag : Nat
deriving DecidableEq, Repr

/-- `VoltnetClient.shouldRetry`: retry on a network error (no response),
on a server error (`status >= 500`) or on rate limiting (`status === 429`). -/
def shouldRetry (e : HttpError) : Bool :=
  match e.response with
  | none => true
  | some status => decide (500 ≤ status) || decide (status = 429)

/-- Outcome of a single transport attempt of one request. -/
inductive Outcome (α : Type) where
  | success : α → Outcome α
  | failure : HttpError → Outcome α
deriving DecidableEq, Repr

/-- JavaScript `x || d` applied to an optional numeric configuration field:
`undefined` and the falsy number `0` both take the default.  This mirrors
`this.config.network?.retries || 3` (and `... timeout || 30000`) in the
`VoltnetClient` source. -/
def jsOrDefault : Option Nat → Nat → Nat
  | none, d => d
  | some v, d => if v = 0 then d else v

/-- One run of a request through the response interceptor installed by
`VoltnetClient.setupRetryLogic`.  `transport j` is the outcome of attempt
`j` (0-indexed); `j` equals the `config._retry` counter stored on the
request configuration at the time of that attempt.  `left` is the
remaining retry budget `retries - _retry`, so the interceptor's guard
`config._retry < retries` is exactly `left > 0`.  On a retry the
interceptor increments the counter and sleeps
`Math.pow(2, config._retry) * 1000` milliseconds, which at counter value
`j + 1` is `2 ^ (j + 1) * 1000`.  Returns the list of backoff delays (ms)
slept before each retry together with the final result; when attempts run
out the last error object is rejected unchanged
(`return Promise.reject(error)`). -/
def runRetryAux (transport : Nat → Outcome α) :
    Nat → Nat → List Nat × Except HttpError α
  | 0, j =>
    match transport j with
    | .success v => ([], .ok v)
    | .failure e => ([], .error e)
  | left + 1, j =>
    match transport j with
    | .success v => ([], .ok v)
    | .failure e =>
      if shouldRetry e then
        let r := runRetryAux transport left (j + 1)
        (2 ^ (j + 1) * 1000 :: r.1, r.2)
      else ([], .error e)

/-- A full run of one request against the interceptor with retry bound
`retries`, starting from a fresh `_retry = 0` counter. -/
def runRetry (transport : Nat → Outcome α) (retries : Nat) :
    List Nat × Except HttpError α :=
  runRetryAux transport retries 0

/-- Total number of transport attempts a request makes under the pipeline
built from configuration field `network.retries = retriesCfg`: one initial
attempt plus one per backoff delay slept. -/
def pipelineAttempts (retriesCfg : Option Nat) (transport : Nat → Outcome α) :
    Nat :=
  (runRetry transport (jsOrDefault retriesCfg 3)).1.length + 1

/-- The backoff delays slept by a run that retries `n` times starting from
counter value `j`: the retry at counter value `j + m + 1` sleeps
`2 ^ (j + m + 1) * 1000` milliseconds. -/
def backoffDelays (n j : Nat) : List Nat :=
  (List.range n).map (fun m => 2 ^ (j + m + 1) * 1000)

theorem backoffDelays_succ (n j : Nat) :
    backoffDelays (n + 1) j = 2 ^ (j + 1) * 1000 :: backoffDelays n (j + 1) := by
  simp only [backoffDelays, List.range_succ_eq_map, List.map_cons, List.map_map,
    Nat.add_zero]
  refine congrArg _ (List.map_congr_left ?_)
  intro m _
  simp only [Function.comp_apply, Nat.succ_eq_add_one]
  rw [show j + (m + 1) + 1 = j + 1 + m + 1 from by omega]

/-- On a transport that fails every attempt with a retryable error, the
interceptor consumes its whole retry budget: it sleeps exactly the
exponential-backoff delays and finally rejects with the error observed at
the last attempt. -/
theorem runRetryAux_allFail (err : Nat → HttpError)
    (hfail : ∀ k, shouldRetry (err k) = true) :
    ∀ left j, runRetryAux (fun i => Outcome.failure (err i) : Nat → Outcome Nat) left j
      = (backoffDelays left j, Except.error (err (j + left))) := by
  intro left
  induction left with
  | zero =>
    intro j
    simp [runRetryAux, backoffDelays]
  | succ n ih =>
    intro j
    simp only [runRetryAux, hfail j, if_true, ih (j + 1), backoffDelays_succ]
    rw [show j + 1 + n = j + (n + 1) from by omega]

/-- C1: a failed request is retried iff either no response was received at
all (network-level failure) or the response status is ≥ 500 or equals 429;
any other failure is never retried: whatever the retry budget, the run
stops after exactly one attempt (no backoff delay is slept) and surfaces
that very error; and a retryable first failure, given budget, does lead to
a retry. -/
theorem c1_retry_classification (retries : Nat) (e : HttpError)
    (transport : Nat → Outcome Nat) :
    (shouldRetry e = true ↔
        e.response = none ∨ ∃ s, e.response = some s ∧ (500 ≤ s ∨ s = 429)) ∧
    (transport 0 = Outcome.failure e → shouldRetry e = false →
        runRetry transport retries = ([], Except.error e)) ∧
    (transport 0 = Outcome.failure e → shouldRetry e = true → 0 < retries →
        (runRetry transport retries).1 ≠ []) := by
  refine ⟨?_, ?_, ?_⟩
  · cases hr : e.response with
    | none => simp [shouldRetry, hr]
    | some s => simp [shouldRetry, hr, Bool.or_eq_true, decide_eq_true_iff]
  · intro h0 hnr
    cases retries with
    | zero => simp [runRetry, runRetryAux, h0]
    | succ n => simp [runRetry, runRetryAux, h0, hnr]
  · intro h0 hr hpos
    cases retries with
    | zero => omega
    | succ n => simp [runRetry, runRetryAux, h0, hr]

/-- C1 witness: a 404 response is not retryable — with budget 3 the run
makes exactly one attempt and surfaces the original error object — while a
network-level failure with the same budget does sleep a backoff delay. -/
theorem c1_retry_classification_witness :
    runRetry (fun _ => Outcome.failure ⟨some 404, 7⟩ : Nat → Outcome Nat) 3
        = ([], Except.error ⟨some 404, 7⟩) ∧
    (runRetry (fun _ => Outcome.failure ⟨none, 0⟩ : Nat → Outcome Nat) 3).1 ≠ [] :=
  ⟨(c1_retry_classification 3 ⟨some 404, 7⟩
      (fun _ => Outcome.failure ⟨some 404, 7⟩)).2.1 rfl (by decide),
   (c1_retry_classification 3 ⟨none, 0⟩
      (fun _ => Outcome.failure ⟨none, 0⟩)).2.2 rfl (by decide) (by decide)⟩

/-- C2 counterexample: with `network.retries` explicitly 0 and a transport
failing every attempt with a network-level (retryable) error, the pipeline
makes 4 total attempts, not 0 + 1 = 1: `retries || 3` treats the falsy
configured value 0 as unset and falls back to the default 3. -/
theorem c2_counterexample :
    pipelineAttempts (some 0)
        (fun _ => Outcome.failure ⟨none, 0⟩ : Nat → Outcome Nat) = 4 ∧
    (4 : Nat) ≠ 0 + 1 := by decide

/-- C2 (amended): the effective retry bound is `retries || 3` — the
configured count when it is a nonzero number, and 3 when the field is
absent or explicitly 0.  Against a transport failing every attempt with a
retryable failure the pipeline makes exactly (effective bound) + 1 total
attempts and then fails; in particular an explicit `retries = 0` yields
3 + 1 = 4 attempts rather than 1. -/
theorem c2_amended_attempts (retriesCfg : Option Nat) (err : Nat → HttpError)
    (hfail : ∀ k, shouldRetry (err k) = true) :
    pipelineAttempts retriesCfg (fun i => Outcome.failure (err i) : Nat → Outcome Nat)
        = jsOrDefault retriesCfg 3 + 1 ∧
    jsOrDefault (some 0) 3 = 3 ∧
    jsOrDefault none 3 = 3 ∧
    (∀ r, r ≠ 0 → jsOrDefault (some r) 3 = r) := by
  refine ⟨?_, rfl, rfl, ?_⟩
  · simp [pipelineAttempts, runRetry, runRetryAux_allFail err hfail, backoffDelays]
  · intro r hr
    simp [jsOrDefault, hr]

/-- C2 witness: the amended attempt count evaluated at an explicit
`retries = 0` configuration and an always-failing network transport. -/
theorem c2_amended_attempts_witness :
    pipelineAttempts (some 0)
        (fun _ => Outcome.failure ⟨none, 0⟩ : Nat → Outcome Nat) = 4 :=
  (c2_amended_attempts (some 0) (fun _ => ⟨none, 0⟩) (fun _ => rfl)).1

/-- C3: on a run whose every attempt fails retryably, the delay slept
before the n-th retry (1-indexed, i.e. before the (n+1)-th attempt
overall) is `2 ^ n` seconds: the second attempt waits 2000 ms and the
third 4000 ms; and when the budget is exhausted the run surfaces exactly
the error observed at the final attempt, not a wrapper around it. -/
theorem c3_backoff_and_last_error (retries : Nat) (err : Nat → HttpError)
    (hfail : ∀ k, shouldRetry (err k) = true) :
    (runRetry (fun i => Outcome.failure (err i) : Nat → Outcome Nat) retries).1
        = (List.range retries).map (fun n => 2 ^ (n + 1) * 1000) ∧
    (runRetry (fun i => Outcome.failure (err i) : Nat → Outcome Nat) retries).2
        = Except.error (err retries) ∧
    (1 ≤ retries →
      ((runRetry (fun i => Outcome.failure (err i) : Nat → Outcome Nat) retries).1)[0]?
        = some 2000) ∧
    (2 ≤ retries →
      ((runRetry (fun i => Outcome.failure (err i) : Nat → Outcome Nat) retries).1)[1]?
        = some 4000) := by
  have h := runRetryAux_allFail err hfail retries 0
  have hd : (runRetry (fun i => Outcome.failure (err i) : Nat → Outcome Nat) retries).1
      = (List.range retries).map (fun n => 2 ^ (n + 1) * 1000) := by
    rw [runRetry, h]
    simp [backoffDelays]
  refine ⟨hd, ?_, ?_, ?_⟩
  · rw [runRetry, h]
    simp
  · intro h1
    rw [hd, List.getElem?_map, List.getElem?_range (by omega : 0 < retries)]
    rfl
  · intro h2
    rw [hd, List.getElem?_map, List.getElem?_range (by omega : 1 < retries)]
    rfl

/-- C3 witness: with budget 3 and a network failure (tagged by attempt
index) at every attempt, the delays are 2 s, 4 s, 8 s and the error of the
final (fourth) attempt is surfaced unchanged. -/
theorem c3_backoff_and_last_error_witness :
    (runRetry (fun i => Outcome.failure ⟨none, i⟩ : Nat → Outcome Nat) 3).1
        = [2000, 4000, 8000] ∧
    (runRetry (fun i => Outcome.failure ⟨none, i⟩ : Nat → Outcome Nat) 3).2
        = Except.error ⟨none, 3⟩ :=
  ⟨(c3_backoff_and_last_error 3 (fun i => ⟨none, i⟩) (fun _ => rfl)).1,
   (c3_backoff_and_last_error 3 (fun i => ⟨none, i⟩) (fun _ => rfl)).2.1⟩

/-- What a registered listener callback does when invoked: return normally
or throw. -/
inductive HandleBehavior where
  | ok : HandleBehavior
  | throws : HandleBehavior
deriving DecidableEq, Repr

/-- A registered callback handle: an identity plus its invocation
behavior. -/
structure Handle where
  hid : Nat
  behavior : HandleBehavior
deriving DecidableEq, Repr

/-- `EventEmitter.emit` of the `eventemitter3` dependency, the base class
of `VoltnetClient` and hence the dispatch of the notification registry:
the listeners of the kind are called one after another in registration
order with no try/catch around the calls, so a listener that throws stops
the iteration and its exception propagates to `emit`'s caller.  Returns
the ids of the handles actually invoked and whether an exception escaped
from `emit`. -/
def emitRun : List Handle → List Nat × Bool
  | [] => ([], false)
  | h :: rest =>
    match h.behavior with
    | .ok =>
      let r := emitRun rest
      (h.hid :: r.1, r.2)
    | .throws => ([h.hid], true)

/-- The state of a `VoltnetClient` relevant to the realtime channel and
the listener registry.  `wsConnection` is the socket currently referenced
by the client (by id); `closingSockets` are sockets closed locally whose
still-attached `onclose` callback has not yet fired; `reconnectTimers`
are the delays (ms) of scheduled, not-yet-fired `setTimeout` reconnect
callbacks — the source never calls `clearTimeout`, so only firing removes
one; `listeners` is the registry of (kind, handle) subscriptions. -/
structure ClientState where
  wsConnection : Option Nat
  closingSockets : List Nat
  reconnectTimers : List Nat
  listeners : List (String × Handle)
deriving DecidableEq, Repr

/-- `VoltnetClient.disconnect`: `close()` the active socket if any (its
`onclose` handler stays attached and will still fire), drop the
reference, and `removeAllListeners()`.  No timer is cancelled. -/
def disconnect (s : ClientState) : ClientState :=
  match s.wsConnection with
  | some c =>
    { s with wsConnection := none
             closingSockets := s.closingSockets ++ [c]
             listeners := [] }
  | none => { s with listeners := [] }

/-- Body of the `onclose` handler installed by `initializeWebSocket`: log
the disconnection and schedule `setTimeout(() => initializeWebSocket(), 5000)`.
It clears nothing and cancels nothing. -/
def onCloseHandler (s : ClientState) : ClientState :=
  { s with reconnectTimers := s.reconnectTimers ++ [5000] }

/-- `VoltnetClient.initializeWebSocket`: construct a new socket and
install the handlers.  `ctorOk = false` models `new WebSocket(...)`
throwing, in which case the catch block only logs the failure — no
reconnect is scheduled and the state is left as it was.  On success the
new socket replaces `wsConnection`. -/
def initWebSocket (ctorOk : Bool) (newId : Nat) (s : ClientState) : ClientState :=
  if ctorOk then { s with wsConnection := some newId } else s

/-- A scheduled reconnect timer fires: the timer is consumed and its
callback runs `initializeWebSocket`. -/
def fireReconnectTimer (ctorOk : Bool) (newId : Nat) (s : ClientState) : ClientState :=
  initWebSocket ctorOk newId { s with reconnectTimers := s.reconnectTimers.drop 1 }

/-- Dispatch of an event kind: the handles currently registered for that
kind, invoked through the emitter (`emitRun`). -/
def dispatchKind (s : ClientState) (k : String) : List Nat × Bool :=
  emitRun ((s.listeners.filter (fun p => p.1 == k)).map Prod.snd)

/-- C4 counterexample: with two handles registered for a kind where the
first throws, dispatch invokes only the first handle — the second is
never invoked — and the exception escapes to the caller of the dispatch. -/
theorem c4_counterexample :
    emitRun [⟨0, HandleBehavior.throws⟩, ⟨1, HandleBehavior.ok⟩] = ([0], true) ∧
    ¬ (1 ∈ (emitRun [⟨0, HandleBehavior.throws⟩, ⟨1, HandleBehavior.ok⟩]).1 ∧
       (emitRun [⟨0, HandleBehavior.throws⟩, ⟨1, HandleBehavior.ok⟩]).2 = false) := by
  decide

/-- C4 (amended): a handle that throws during a dispatch aborts it — the
handles registered before it (when they return normally) are invoked, the
throwing handle is invoked, every later handle is skipped, and the
exception propagates to the caller of the dispatch.  (In the WebSocket
message path that caller is the `onmessage` try/catch, which only logs;
see the frame-handling model.) -/
theorem c4_amended_throw_aborts_dispatch (front : List Handle) (h : Handle)
    (back : List Handle) (hfront : ∀ x ∈ front, x.behavior = HandleBehavior.ok)
    (hthrow : h.behavior = HandleBehavior.throws) :
    emitRun (front ++ h :: back) = (front.map Handle.hid ++ [h.hid], true) := by
  induction front with
  | nil => simp [emitRun, hthrow]
  | cons a rest ih =>
    have ha : a.behavior = HandleBehavior.ok := hfront a (by simp)
    have hrest : ∀ x ∈ rest, x.behavior = HandleBehavior.ok :=
      fun x hx => hfront x (by simp [hx])
    simp [emitRun, ha, ih hrest]

/-- C4 amended witness: a normal handle, then a throwing one, then one
more: the first two ids are invoked, the third is not, and the exception
escapes. -/
theorem c4_amended_throw_aborts_dispatch_witness :
    emitRun [⟨5, HandleBehavior.ok⟩, ⟨0, HandleBehavior.throws⟩, ⟨1, HandleBehavior.ok⟩]
      = ([5, 0], true) :=
  c4_amended_throw_aborts_dispatch [⟨5, HandleBehavior.ok⟩] ⟨0, HandleBehavior.throws⟩
    [⟨1, HandleBehavior.ok⟩] (by decide) rfl

/-- C5 counterexample: start from a client with an open socket (id 0), one
already-scheduled reconnect timer and an empty registry.  `disconnect()`
leaves the pending timer in place (nothing in the source calls
`clearTimeout`); the closed socket's still-attached `onclose` handler then
schedules yet another reconnect, and the pending timer's firing performs a
reconnection, giving the supposedly torn-down client a live socket again. -/
theorem c5_counterexample :
    (disconnect ⟨some 0, [], [5000], []⟩).reconnectTimers ≠ [] ∧
    (disconnect ⟨some 0, [], [5000], []⟩).reconnectTimers = [5000] ∧
    (onCloseHandler (disconnect ⟨some 0, [], [5000], []⟩)).reconnectTimers
      = [5000, 5000] ∧
    (fireReconnectTimer true 1 (disconnect ⟨some 0, [], [5000], []⟩)).wsConnection
      = some 1 := by
  decide

/-- C5 (amended): `disconnect()` closes the active connection if any,
drops the reference and clears the registry, and afterwards a dispatch to
any kind invokes zero handles and raises no error; but it cancels no
pending reconnection timer ( the scheduled timers are exactly those before
the call), and the closed socket's still-attached `onclose` handler
schedules a further reconnect after 5 seconds, so reconnection attempts
can still be scheduled and performed after `disconnect()`. -/
theorem c5_amended_disconnect (s : ClientState) (k : String) :
    (disconnect s).wsConnection = none ∧
    (disconnect s).listeners = [] ∧
    dispatchKind (disconnect s) k = ([], false) ∧
    (disconnect s).reconnectTimers = s.reconnectTimers ∧
    (onCloseHandler (disconnect s)).reconnectTimers
      = s.reconnectTimers ++ [5000] := by
  cases h : s.wsConnection with
  | none => simp [disconnect, dispatchKind, onCloseHandler, emitRun, h]
  | some c => simp [disconnect, dispatchKind, onCloseHandler, emitRun, h]

/-- A decoded realtime frame: its `type` field (`none` models a frame with
the field absent, i.e. `undefined`) and its payload. -/
structure Frame where
  ftype : Option String
  payload : Nat
deriving DecidableEq, Repr

/-- The frame kinds routed by `handleWebSocketMessage`'s switch. -/
def recognizedKinds : List String :=
  ["measurement", "transaction", "settlement", "offer", "price-update",
   "balance-update"]

/-- `VoltnetClient.handleWebSocketMessage`: destructure `type` and
`payload` and switch on `type`; each recognized kind is emitted with the
payload, and anything else — including a missing `type` — falls to the
`default` case, which only logs a warning.  Returns the emitted
(kind, payload) events and the diagnostic log lines. -/
def handleWebSocketMessage (data : Frame) : List (String × Nat) × List String :=
  match data.ftype with
  | none => ([], ["unknown message type"])
  | some t =>
    if t = "measurement" then ([("measurement", data.payload)], [])
    else if t = "transaction" then ([("transaction", data.payload)], [])
    else if t = "settlement" then ([("settlement", data.payload)], [])
    else if t = "offer" then ([("offer", data.payload)], [])
    else if t = "price-update" then ([("price-update", data.payload)], [])
    else if t = "balance-update" then ([("balance-update", data.payload)], [])
    else ([], ["unknown message type"])

/-- The `onmessage` handler installed by `initializeWebSocket`:
`JSON.parse` the raw message and hand it to `handleWebSocketMessage`, the
whole body inside a try/catch that only logs.  `raw = none` models a
message whose parse throws.  The client state is returned alongside the
emitted events and diagnostics: the handler body never touches the
connection or the registry. -/
def onMessageHandler (raw : Option Frame) (s : ClientState) :
    ClientState × List (String × Nat) × List String :=
  match raw with
  | none => (s, [], ["failed to parse message"])
  | some f => (s, (handleWebSocketMessage f).1, (handleWebSocketMessage f).2)

/-- C6: an inbound frame that fails to decode, or whose kind is missing or
not one of the six recognized kinds, is dropped: the channel state
(connection reference, pending timers, registry) is unchanged, no kind is
dispatched, and a diagnostic line is logged. -/
theorem c6_bad_frames_dropped (s : ClientState) (raw : Option Frame)
    (hbad : raw = none ∨
      ∃ f, raw = some f ∧ ∀ t, f.ftype = some t → t ∉ recognizedKinds) :
    (onMessageHandler raw s).1 = s ∧
    (onMessageHandler raw s).2.1 = [] ∧
    (onMessageHandler raw s).2.2 ≠ [] := by
  rcases hbad with h | ⟨f, rfl, hf⟩
  · subst h
    exact ⟨rfl, rfl, by simp [onMessageHandler]⟩
  · cases ht : f.ftype with
    | none => simp [onMessageHandler, handleWebSocketMessage, ht]
    | some t =>
      have hmem := hf t ht
      simp only [recognizedKinds, List.mem_cons, List.not_mem_nil, or_false,
        not_or] at hmem
      obtain ⟨h1, h2, h3, h4, h5, h6⟩ := hmem
      simp [onMessageHandler, handleWebSocketMessage, ht, h1, h2, h3, h4, h5, h6]

/-- C6 witness: a frame with the unrecognized kind `bogus` is dropped with
a diagnostic and dispatched to no kind, the state untouched. -/
theorem c6_bad_frames_dropped_witness :
    (onMessageHandler (some ⟨some "bogus", 7⟩) ⟨some 0, [], [], []⟩).1
      = ⟨some 0, [], [], []⟩ ∧
    (onMessageHandler (some ⟨some "bogus", 7⟩) ⟨some 0, [], [], []⟩).2.1 = [] :=
  ⟨(c6_bad_frames_dropped ⟨some 0, [], [], []⟩ (some ⟨some "bogus", 7⟩)
      (Or.inr ⟨⟨some "bogus", 7⟩, rfl, by intro t ht; simp at ht; subst ht; decide⟩)).1,
   (c6_bad_frames_dropped ⟨some 0, [], [], []⟩ (some ⟨some "bogus", 7⟩)
      (Or.inr ⟨⟨some "bogus", 7⟩, rfl, by intro t ht; simp at ht; subst ht; decide⟩)).2.1⟩

/-- C7 counterexample: when `new WebSocket(...)` throws, the catch block
of `initializeWebSocket` only logs: from a state with no connection and no
pending timer, the failed connection attempt schedules no reconnect and
leaves the channel in a dead state — a terminal state reached without the
client being shut down. -/
theorem c7_counterexample :
    initWebSocket false 1 ⟨none, [], [], []⟩ = ⟨none, [], [], []⟩ ∧
    (initWebSocket false 1 ⟨none, [], [], []⟩).reconnectTimers = [] ∧
    (initWebSocket false 1 ⟨none, [], [], []⟩).wsConnection = none := by
  decide

/-- C7 (amended): whenever the socket's close event fires — which covers a
failed handshake and the closure of an established connection — the
`onclose` handler schedules a reconnect attempt after a fixed 5000 ms
delay with no retry bound; but a connection attempt in which the socket
constructor itself throws is only logged: no reconnect is scheduled, so a
terminal dead state is reachable without the owning client shutting the
channel down. -/
theorem c7_amended_reconnect (s : ClientState) (newId : Nat) :
    (onCloseHandler s).reconnectTimers = s.reconnectTimers ++ [5000] ∧
    initWebSocket false newId s = s ∧
    (initWebSocket true newId s).wsConnection = some newId := by
  refine ⟨rfl, ?_, ?_⟩ <;> simp [initWebSocket]

/-- The configuration consumed by the `VoltnetClient` constructor:
endpoint, credentials, participant identity, the optional `network`
tuning fields and the realtime toggle. -/
structure VoltnetConfig where
  apiUrl : String
  apiKey : String
  participantId : String
  timeout : Option Nat
  retries : Option Nat
  enableRealtime : Bool
deriving DecidableEq, Repr

/-- The axios instance created in the constructor: base URL, per-attempt
timeout and instance-level headers. -/
structure HttpClientInstance where
  baseURL : String
  timeout : Nat
  headers : List (String × String)
deriving DecidableEq, Repr

/-- The `axios.create(...)` call in the `VoltnetClient` constructor:
`baseURL` from `config.apiUrl`, `timeout` from
`config.network?.timeout || 30000`, and the three instance-level headers
built once from the API key and the participant id. -/
def mkHttpClient (config : VoltnetConfig) : HttpClientInstance :=
  { baseURL := config.apiUrl
    timeout := jsOrDefault config.timeout 30000
    headers := [("Authorization", "Bearer " ++ config.apiKey),
                ("Content-Type", "application/json"),
                ("X-Participant-Id", config.participantId)] }

/-- The HTTP verbs the resource methods use on the instance. -/
inductive HttpMethod where
  | get | post | patch | delete
deriving DecidableEq, Repr

/-- An outgoing request as handed to the transport. -/
structure OutgoingRequest where
  method : HttpMethod
  url : String
  headers : List (String × String)
deriving DecidableEq, Repr

/-- A call issued through the instance (`this.httpClient.get(path)` and
friends): axios resolves the path against the instance's base URL and
attaches the instance-level headers; no call site in the repository adds
or overrides a header per call. -/
def issueRequest (c : HttpClientInstance) (m : HttpMethod) (path : String) :
    OutgoingRequest :=
  { method := m, url := c.baseURL ++ path, headers := c.headers }

/-- C8: every outgoing request carries exactly the three fixed headers:
`Authorization: Bearer <apiKey>`, `Content-Type: application/json` and
`X-Participant-Id: <participantId>`; they are fixed at construction and
the headers of any issued call are exactly the construction-time ones. -/
theorem c8_fixed_headers (config : VoltnetConfig) (m : HttpMethod)
    (path : String) :
    (mkHttpClient config).headers =
      [("Authorization", "Bearer " ++ config.apiKey),
       ("Content-Type", "application/json"),
       ("X-Participant-Id", config.participantId)] ∧
    (issueRequest (mkHttpClient config) m path).headers
      = (mkHttpClient config).headers :=
  ⟨rfl, rfl⟩

/-- `calculatePower` from `src/utils.ts`: power from energy and duration,
with the division guarded by the `hours === 0` check.  JavaScript numbers
are modelled as rationals; the Lean function is total by construction,
matching the guard making the source total on all numeric inputs. -/
def calculatePower (energyKwh hours : ℚ) : ℚ :=
  if hours = 0 then 0 else energyKwh / hours

/-- C9: for every energy value, `calculatePower energyKwh 0 = 0` — the
division by `hours` is guarded, so the zero-duration case is well defined
and the function is total. -/
theorem c9_calculatePower_zero_hours (energyKwh : ℚ) :
    calculatePower energyKwh 0 = 0 := by
  simp [calculatePower]

/-- `retryWithBackoff` from `src/utils.ts`.  The loop
`for (let i = 0; i < maxRetries; i++)` tries `fn` and, on rejection,
stores the error and sleeps `initialDelay * 2 ^ i` ms — but only when
`i < maxRetries - 1`; after the loop it rethrows `lastError`, which is
still `undefined` (modelled as `none`) when `fn` was never invoked.
`fn j` is the outcome of the j-th invocation (0-indexed); `left` is the
remaining iteration budget `maxRetries - i`, so the loop guard
`i < maxRetries` is exactly `left > 0`.  Returns how many times `fn` was
invoked, the delays slept, and the final result. -/
def retryWithBackoffAux (fn : Nat → Except E T) (maxRetries initialDelay : Nat) :
    Nat → Nat → Option E → Nat × List Nat × Except (Option E) T
  | 0, _, lastError => (0, [], .error lastError)
  | left + 1, i, _ =>
    match fn i with
    | .ok v => (1, [], .ok v)
    | .error e =>
      let ds := if i < maxRetries - 1 then [initialDelay * 2 ^ i] else []
      let r := retryWithBackoffAux fn maxRetries initialDelay left (i + 1) (some e)
      (r.1 + 1, ds ++ r.2.1, r.2.2)

/-- A full run of `retryWithBackoff fn maxRetries initialDelay`. -/
def retryWithBackoff (fn : Nat → Except E T) (maxRetries initialDelay : Nat) :
    Nat × List Nat × Except (Option E) T :=
  retryWithBackoffAux fn maxRetries initialDelay maxRetries 0 none

theorem retryWithBackoffAux_calls_le (fn : Nat → Except Nat Nat) (m d : Nat) :
    ∀ left i lastE, (retryWithBackoffAux fn m d left i lastE).1 ≤ left := by
  intro left
  induction left with
  | zero =>
    intro i lastE
    simp [retryWithBackoffAux]
  | succ n ih =>
    intro i lastE
    cases h : fn i with
    | ok v => simp [retryWithBackoffAux, h]
    | error e =>
      have := ih (i + 1) (some e)
      simp only [retryWithBackoffAux, h]
      omega

theorem retryWithBackoffAux_allFail (err : Nat → Nat) (m d : Nat) :
    ∀ n i lastE,
      (retryWithBackoffAux (fun j => Except.error (err j) : Nat → Except Nat Nat)
          m d (n + 1) i lastE).1 = n + 1 ∧
      (retryWithBackoffAux (fun j => Except.error (err j) : Nat → Except Nat Nat)
          m d (n + 1) i lastE).2.2 = Except.error (some (err (i + n))) := by
  intro n
  induction n with
  | zero =>
    intro i lastE
    simp [retryWithBackoffAux]
  | succ k ih =>
    intro i lastE
    have hih := ih (i + 1) (some (err i))
    constructor
    · show (retryWithBackoffAux (fun j => Except.error (err j) : Nat → Except Nat Nat)
          m d (k + 1) (i + 1) (some (err i))).1 + 1 = k + 1 + 1
      rw [hih.1]
    · show (retryWithBackoffAux (fun j => Except.error (err j) : Nat → Except Nat Nat)
          m d (k + 1) (i + 1) (some (err i))).2.2
        = Except.error (some (err (i + (k + 1))))
      rw [hih.2, show i + 1 + k = i + (k + 1) from by omega]

/-- C10: `retryWithBackoff fn maxRetries initialDelay` invokes `fn` at
most `maxRetries` times; when every invocation rejects it rethrows the
error observed at the last invocation; and with `maxRetries = 0` it never
invokes `fn` and rejects with the still-undefined `lastError`. -/
theorem c10_retryWithBackoff (fn : Nat → Except Nat Nat) (m d : Nat)
    (err : Nat → Nat) :
    (retryWithBackoff fn m d).1 ≤ m ∧
    (0 < m →
      (retryWithBackoff (fun j => Except.error (err j) : Nat → Except Nat Nat) m d).1
          = m ∧
      (retryWithBackoff (fun j => Except.error (err j) : Nat → Except Nat Nat) m d).2.2
          = Except.error (some (err (m - 1)))) ∧
    retryWithBackoff fn 0 d = (0, [], Except.error none) := by
  refine ⟨retryWithBackoffAux_calls_le fn m d m 0 none, ?_, rfl⟩
  intro hm
  obtain ⟨n, rfl⟩ : ∃ n, m = n + 1 := ⟨m - 1, by omega⟩
  have h := retryWithBackoffAux_allFail err (n + 1) d n 0 none
  exact ⟨h.1, by rw [retryWithBackoff, h.2]; simp⟩

/-- C10 witness: with `maxRetries = 2` and every invocation rejecting
with its own index as the error, `fn` is invoked exactly twice and the
second invocation's error is rethrown. -/
theorem c10_retryWithBackoff_witness :
    (retryWithBackoff (fun j => Except.error j : Nat → Except Nat Nat) 2 1000).1 = 2 ∧
    (retryWithBackoff (fun j => Except.error j : Nat → Except Nat Nat) 2 1000).2.2
      = Except.error (some 1) :=
  (c10_retryWithBackoff (fun j => Except.error j) 2 1000 (fun j => j)).2.1 (by decide)

end Voltnet
